import Mathlib

/-!
Verification of the ChatbotService orchestrator (src/services/chatbot_service.py).

The orchestrator composes four external collaborators (chat store, vector
retriever, context formatter, LLM client).  The collaborators live outside
src/, so their call results are modelled as fields of an `Ext` record of
fallible functions (`Except String` mirrors a Python call that may raise),
while the orchestration control flow itself is translated line by line from
`process_chat_prompt`, `_retrieve_relevant_context`, `_generate_llm_response`
and `health_check`.  A trace of `Event`s records the externally observable
collaborator calls (message appends, retrieval query, history formatting,
LLM mode), and the chat store is carried explicitly so that append effects
are visible.
-/

namespace CogniScript

/-- A citation pair of source and excerpt. -/
structure Citation where
  source : String
  excerpt : String
deriving DecidableEq, Repr

/-- A chat message as stored in a session's conversation history. -/
structure Message where
  role : String
  text : String
  citations : List Citation
deriving DecidableEq, Repr

/-- A chat session document: owner and ordered message history. -/
structure Chat where
  userId : String
  conversation_history : List Message
deriving DecidableEq, Repr

/-- The chat store: an association of chat ids to sessions. -/
abbrev Store := List (String × Chat)

/-- Modelled from the spec: ChatStore `get(chatId) → Session|null`
(ChatUtils.get_chat, not under src/). -/
def get_chat (s : Store) (chat_id : String) : Option Chat :=
  (s.find? (fun p => p.1 = chat_id)).map (fun p => p.2)

/-- Modelled from the spec: ChatStore `appendUserMessage(chatId, text)`
(ChatUtils.add_prompt_to_chat, not under src/): appends one user message
to the named session; a no-op when the session is absent. -/
def add_prompt_to_chat (s : Store) (chat_id prompt : String) : Store :=
  s.map (fun p =>
    if p.1 = chat_id then
      (p.1, { p.2 with conversation_history :=
        p.2.conversation_history ++ [⟨"user", prompt, []⟩] })
    else p)

/-- Modelled from the spec: ChatStore `appendAssistantMessage(chatId, text,
citations)` (ChatUtils.add_assistant_response_to_chat, not under src/):
appends one assistant message; a no-op when the session is absent. -/
def add_assistant_response_to_chat (s : Store) (chat_id response : String)
    (citations : List Citation) : Store :=
  s.map (fun p =>
    if p.1 = chat_id then
      (p.1, { p.2 with conversation_history :=
        p.2.conversation_history ++ [⟨"assistant", response, citations⟩] })
    else p)

/-- ChromaDB query results; `RagResults.empty` models the empty dict
returned by `_retrieve_relevant_context` on failure. -/
structure RagResults where
  documents : List (List String)
deriving DecidableEq, Repr

/-- The empty dict returned on retrieval failure. -/
def RagResults.empty : RagResults := ⟨[]⟩

/-- The LLM payload built by `prepare_llm_payload`. -/
structure Payload where
  prompt : String
  context : List String
  history : List String
deriving DecidableEq, Repr

/-- The response dictionary built at step 9 of `process_chat_prompt`
(the environment-dependent timestamp field is omitted). -/
structure ChatResponse where
  chatId : String
  response : String
  citations : List Citation
  contextUsed : Nat
  historyUsed : Nat
deriving DecidableEq, Repr

/-- Python exceptions relevant to the orchestrator: `ValueError` raised by
validation, and any exception raised by an external collaborator call. -/
inductive PyErr where
  | valueError (msg : String)
  | extError (msg : String)
deriving DecidableEq, Repr

/-- Observable collaborator calls, recorded in order.  Append events carry
whether the call returned normally (`ok = true`) or raised. -/
inductive Event where
  | addPrompt (chatId text : String) (ok : Bool)
  | addAssistant (chatId text : String) (citations : List Citation) (ok : Bool)
  | queryDocs (chatId text : String)
  | formatHistory (history : List Message) (maxTurns : Nat)
  | genWithContext (prompt : String) (context history : List String)
  | genPlain (prompt : String)
deriving DecidableEq, Repr

/-- Behaviour of the external collaborators for one request.  Store calls
that may raise are represented by fault fields (`some msg` = the call
raises); the formatter, retriever and LLM calls are fallible functions. -/
structure Ext where
  get_chat1_fault : Option String
  get_chat2_fault : Option String
  add_prompt_fault : Option String
  add_assistant_fault : Option String
  error_append_fault : Option String
  query_chat_docs : String → String → Except String RagResults
  format_rag_context : RagResults → Except String (List String)
  format_chat_history : List Message → Nat → Except String (List String)
  truncate_context_if_needed :
    List String → List String → Nat → Except String (List String × List String)
  prepare_llm_payload : List String → List String → String → Except String Payload
  generate : String → Except String String
  generate_with_context :
    String → List String → List String → Except String String
  extract_citations_from_context :
    List String → String → Except String (List Citation)

/-- Configuration from `ChatbotService.__init__`: `self.max_rag_results = 5`. -/
def max_rag_results : Nat := 5

/-- Configuration from `ChatbotService.__init__`: `self.max_chat_history = 10`. -/
def max_chat_history : Nat := 10

/-- Configuration from `ChatbotService.__init__`: `self.max_tokens = 8000`. -/
def max_tokens : Nat := 8000

/-- The fixed fallback string returned by `_generate_llm_response` when the
LLM call raises. -/
def fallback_response : String :=
  "I apologize, but I\x27m having trouble accessing my language model right now. Please try again later."

/-- The generic apology appended by the error handler of
`process_chat_prompt`. -/
def error_response : String :=
  "I apologize, but I encountered an error while processing your request. Please try again."

/-- The ownership check of step 1: Python `if user_id and
chat.get(\x27userId\x27) != user_id`.  An absent or empty user id is falsy
and skips the check. -/
def owner_mismatch (chat : Chat) (user_id : Option String) : Bool :=
  match user_id with
  | some u => u != "" && chat.userId != u
  | none => false

/-- Embedding of `_retrieve_relevant_context`: queries ChromaDB, swallowing any
exception into the empty dict. -/
def retrieve_relevant_context (ext : Ext) (chat_id query : String) :
    RagResults × List Event :=
  (match ext.query_chat_docs chat_id query with
   | .ok r => r
   | .error _ => RagResults.empty,
   [Event.queryDocs chat_id query])

/-- Embedding of `_generate_llm_response`: context-aware generation when the payload has
a non-empty context or history, else plain generation; any exception in the
call yields the fixed fallback string. -/
def generate_llm_response (ext : Ext) (p : Payload) : String × List Event :=
  if p.context ≠ [] ∨ p.history ≠ [] then
    (match ext.generate_with_context p.prompt p.context p.history with
     | .ok r => r
     | .error _ => fallback_response,
     [Event.genWithContext p.prompt p.context p.history])
  else
    (match ext.generate p.prompt with
     | .ok r => r
     | .error _ => fallback_response,
     [Event.genPlain p.prompt])

/-- The body of the `try` block of `process_chat_prompt` (steps 1–9),
returning the outcome, the resulting store and the event trace. -/
def process_body (ext : Ext) (s0 : Store) (chat_id user_prompt : String)
    (user_id : Option String) : Except PyErr ChatResponse × Store × List Event :=
  match ext.get_chat1_fault with
  | some m => (.error (.extError m), s0, [])
  | none =>
    match get_chat s0 chat_id with
    | none => (.error (.valueError ("Chat not found: " ++ chat_id)), s0, [])
    | some chat =>
      if owner_mismatch chat user_id then
        (.error (.valueError "User ID does not match chat owner"), s0, [])
      else
        match ext.add_prompt_fault with
        | some m => (.error (.extError m), s0,
            [Event.addPrompt chat_id user_prompt false])
        | none =>
          match ext.format_rag_context (retrieve_relevant_context ext chat_id user_prompt).1 with
          | .error m => (.error (.extError m), add_prompt_to_chat s0 chat_id user_prompt,
              Event.addPrompt chat_id user_prompt true ::
                (retrieve_relevant_context ext chat_id user_prompt).2)
          | .ok formatted_rag_context =>
            match ext.get_chat2_fault with
            | some m => (.error (.extError m), add_prompt_to_chat s0 chat_id user_prompt,
                Event.addPrompt chat_id user_prompt true ::
                  (retrieve_relevant_context ext chat_id user_prompt).2)
            | none =>
              match get_chat (add_prompt_to_chat s0 chat_id user_prompt) chat_id with
              | none => (.error (.extError "NoneType has no attribute get"),
                  add_prompt_to_chat s0 chat_id user_prompt,
                  Event.addPrompt chat_id user_prompt true ::
                    (retrieve_relevant_context ext chat_id user_prompt).2)
              | some chat_with_history =>
                match ext.format_chat_history chat_with_history.conversation_history
                    max_chat_history with
                | .error m => (.error (.extError m), add_prompt_to_chat s0 chat_id user_prompt,
                    Event.addPrompt chat_id user_prompt true ::
                      (retrieve_relevant_context ext chat_id user_prompt).2 ++
                      [Event.formatHistory chat_with_history.conversation_history max_chat_history])
                | .ok formatted_chat_history =>
                  match ext.truncate_context_if_needed formatted_rag_context
                      formatted_chat_history max_tokens with
                  | .error m => (.error (.extError m), add_prompt_to_chat s0 chat_id user_prompt,
                      Event.addPrompt chat_id user_prompt true ::
                        (retrieve_relevant_context ext chat_id user_prompt).2 ++
                        [Event.formatHistory chat_with_history.conversation_history max_chat_history])
                  | .ok (optimized_context, optimized_history) =>
                    match ext.prepare_llm_payload optimized_context
                        optimized_history user_prompt with
                    | .error m => (.error (.extError m), add_prompt_to_chat s0 chat_id user_prompt,
                        Event.addPrompt chat_id user_prompt true ::
                          (retrieve_relevant_context ext chat_id user_prompt).2 ++
                          [Event.formatHistory chat_with_history.conversation_history max_chat_history])
                    | .ok llm_payload =>
                      match ext.extract_citations_from_context optimized_context
                          (generate_llm_response ext llm_payload).1 with
                      | .error m => (.error (.extError m), add_prompt_to_chat s0 chat_id user_prompt,
                          Event.addPrompt chat_id user_prompt true ::
                            (retrieve_relevant_context ext chat_id user_prompt).2 ++
                            [Event.formatHistory chat_with_history.conversation_history max_chat_history] ++
                            (generate_llm_response ext llm_payload).2)
                      | .ok citations =>
                        match ext.add_assistant_fault with
                        | some m => (.error (.extError m), add_prompt_to_chat s0 chat_id user_prompt,
                            Event.addPrompt chat_id user_prompt true ::
                              (retrieve_relevant_context ext chat_id user_prompt).2 ++
                              [Event.formatHistory chat_with_history.conversation_history max_chat_history] ++
                              (generate_llm_response ext llm_payload).2 ++
                              [Event.addAssistant chat_id (generate_llm_response ext llm_payload).1 citations false])
                        | none =>
                          (.ok { chatId := chat_id
                                 response := (generate_llm_response ext llm_payload).1
                                 citations := citations
                                 contextUsed := optimized_context.length
                                 historyUsed := optimized_history.length },
                           add_assistant_response_to_chat
                             (add_prompt_to_chat s0 chat_id user_prompt) chat_id
                             (generate_llm_response ext llm_payload).1 citations,
                           Event.addPrompt chat_id user_prompt true ::
                             (retrieve_relevant_context ext chat_id user_prompt).2 ++
                             [Event.formatHistory chat_with_history.conversation_history max_chat_history] ++
                             (generate_llm_response ext llm_payload).2 ++
                             [Event.addAssistant chat_id (generate_llm_response ext llm_payload).1 citations true])

/-- The outcome of one `process_chat_prompt` request. -/
structure RunResult where
  result : Except PyErr ChatResponse
  store : Store
  trace : List Event
deriving Repr

/-- Embedding of `process_chat_prompt`: the try body followed by the except handler,
which attempts a best-effort apology append (its own failure swallowed) and
re-raises the original error. -/
def process_chat_prompt (ext : Ext) (s0 : Store) (chat_id user_prompt : String)
    (user_id : Option String) : RunResult :=
  match process_body ext s0 chat_id user_prompt user_id with
  | (.ok resp, s, tr) => ⟨.ok resp, s, tr⟩
  | (.error e, s, tr) =>
    match ext.error_append_fault with
    | some _ => ⟨.error e, s, tr ++ [Event.addAssistant chat_id error_response [] false]⟩
    | none => ⟨.error e, add_assistant_response_to_chat s chat_id error_response [],
        tr ++ [Event.addAssistant chat_id error_response [] true]⟩

/-- Collaborator behaviour for `health_check`: the ChromaDB collection fetch and
the MongoDB probe read, each of which may raise. -/
structure HealthExt where
  get_collection : Except String (Option String)
  get_chat_probe : Except String (Option Chat)
deriving Repr

/-- The health map returned by `health_check` (timestamp omitted). -/
structure Health where
  chatbot_service : Bool
  chroma_db : Bool
  mongodb : Bool
  perplexity_llm : Bool
deriving DecidableEq, Repr

/-- Embedding of `health_check`: starts from all-false component entries (service itself
true), then probes each collaborator in its own try block; any exception
leaves that entry false.  The LLM probe is `self.llm is not None`, which
holds for a constructed service. -/
def health_check (ext : HealthExt) : Health :=
  let chroma := match ext.get_collection with
    | .ok c => c.isSome
    | .error _ => false
  let mongo := match ext.get_chat_probe with
    | .ok _ => true
    | .error _ => false
  { chatbot_service := true
    chroma_db := chroma
    mongodb := mongo
    perplexity_llm := true }

/-- Modelled from the spec: the per-chat document index consumed by
VectorRetriever (ChromaUtils, not under src/): chat id to its indexed
document chunks, most relevant first. -/
abbrev ChromaDB := List (String × List String)

/-- The documents indexed for a chat. -/
def chat_docs (db : ChromaDB) (chat_id : String) : List String :=
  ((db.find? (fun p => p.1 = chat_id)).map (fun p => p.2)).getD []

/-- Modelled from the spec: `VectorRetriever.query(chatId, text)`
(ChromaUtils.query_chat_docs, not under src/): top `max_rag_results`
items scoped to the chat's document set. -/
def spec_query_chat_docs (db : ChromaDB) (chat_id : String) (_query : String) :
    RagResults :=
  ⟨[(chat_docs db chat_id).take max_rag_results]⟩

/-- Modelled from the spec: `ContextFormatter.formatContext`
(LLMContextFormatter.format_rag_context, not under src/): retrieval results
become text blocks; an empty result yields no blocks. -/
def spec_format_rag_context (r : RagResults) : List String :=
  r.documents.flatten

/-- Modelled from the spec: `ContextFormatter.formatHistory(messages,
maxTurns)` (LLMContextFormatter.format_chat_history, not under src/): the
last `maxTurns` messages, each rendered as one block. -/
def spec_format_chat_history (msgs : List Message) (maxTurns : Nat) : List String :=
  ((msgs.reverse.take maxTurns).reverse).map (fun m => m.role ++ ": " ++ m.text)

/-- Modelled from the spec: the token-count estimate a formatted block is
tagged with (the counting itself is delegated; four characters per token). -/
def estimate_tokens (s : String) : Nat :=
  s.length / 4

/-- Total token estimate of a list of blocks. -/
def tokens_of (blocks : List String) : Nat :=
  (blocks.map estimate_tokens).sum

/-- Greedy front-to-back selection of blocks whose total estimate stays
within the budget; used by the spec-modelled truncation. -/
def take_within_budget (budget : Nat) : List String → List String
  | [] => []
  | b :: rest =>
    if estimate_tokens b ≤ budget then
      b :: take_within_budget (budget - estimate_tokens b) rest
    else []

/-- Modelled from the spec: `ContextFormatter.truncate(context, history,
tokenBudget)` (LLMContextFormatter.truncate_context_if_needed, not under
src/): when over budget, truncate context first (keeping the most relevant
leading blocks), then history (keeping the most recent trailing blocks);
never exceeds the budget, never touches the prompt. -/
def spec_truncate_context_if_needed (ctx hist : List String) (budget : Nat) :
    List String × List String :=
  if tokens_of ctx + tokens_of hist ≤ budget then (ctx, hist)
  else if tokens_of hist ≤ budget then
    (take_within_budget (budget - tokens_of hist) ctx, hist)
  else ([], (take_within_budget budget hist.reverse).reverse)

/-- Modelled from the spec: `ContextFormatter.buildPayload(context, history,
prompt)` (LLMContextFormatter.prepare_llm_payload, not under src/). -/
def spec_prepare_llm_payload (ctx hist : List String) (prompt : String) : Payload :=
  { prompt := prompt, context := ctx, history := hist }

/-- Whether `pat` occurs as a substring of `s`. -/
def contains_block (s pat : String) : Bool :=
  (s.splitOn pat).length ≥ 2

/-- Modelled from the spec: `ContextFormatter.extractCitations(context,
responseText)` (LLMContextFormatter.extract_citations_from_context, not
under src/): the ordered, possibly empty list of {source, excerpt} pairs
for context blocks matched in the response text. -/
def spec_extract_citations (ctx : List String) (response : String) : List Citation :=
  (ctx.filter (fun b => contains_block response b)).map (fun b => ⟨b, b⟩)

/-- A fully benign collaborator environment built on the spec-modelled
formatter, parameterised by the retriever and the two LLM calls. -/
def mkExt (query : String → String → Except String RagResults)
    (gen : String → Except String String)
    (genCtx : String → List String → List String → Except String String) : Ext :=
  { get_chat1_fault := none
    get_chat2_fault := none
    add_prompt_fault := none
    add_assistant_fault := none
    error_append_fault := none
    query_chat_docs := query
    format_rag_context := fun r => .ok (spec_format_rag_context r)
    format_chat_history := fun ms n => .ok (spec_format_chat_history ms n)
    truncate_context_if_needed := fun c h b => .ok (spec_truncate_context_if_needed c h b)
    prepare_llm_payload := fun c h p => .ok (spec_prepare_llm_payload c h p)
    generate := gen
    generate_with_context := genCtx
    extract_citations_from_context := fun c r => .ok (spec_extract_citations c r) }

/-- Whether an external call raised. -/
def isErr {α : Type} (e : Except String α) : Bool :=
  match e with
  | .error _ => true
  | .ok _ => false

/-- Number of user-message appends that returned normally in a trace. -/
def count_user_appends (tr : List Event) : Nat :=
  tr.countP (fun e => match e with
    | .addPrompt _ _ true => true
    | _ => false)

/-- Number of assistant-message appends that returned normally in a trace. -/
def count_assistant_appends (tr : List Event) : Nat :=
  tr.countP (fun e => match e with
    | .addAssistant _ _ _ true => true
    | _ => false)

/-- Number of store-write attempts (successful or raising) in a trace. -/
def count_write_attempts (tr : List Event) : Nat :=
  tr.countP (fun e => match e with
    | .addPrompt _ _ _ => true
    | .addAssistant _ _ _ _ => true
    | _ => false)

/-- The retrieval helper always records exactly its query call. -/
@[simp]
lemma retrieve_events (ext : Ext) (cid q : String) :
    (retrieve_relevant_context ext cid q).2 = [Event.queryDocs cid q] := rfl

/-- LLM generation records no user-message append. -/
@[simp]
lemma count_user_appends_gen (ext : Ext) (p : Payload) :
    count_user_appends (generate_llm_response ext p).2 = 0 := by
  unfold generate_llm_response
  split <;> simp [count_user_appends]

/-- LLM generation records no assistant-message append. -/
@[simp]
lemma count_assistant_appends_gen (ext : Ext) (p : Payload) :
    count_assistant_appends (generate_llm_response ext p).2 = 0 := by
  unfold generate_llm_response
  split <;> simp [count_assistant_appends]

/-- The only event LLM generation records is its own call, in one of the
two modes. -/
lemma gen_event_cases {ext : Ext} {p : Payload} {a : Event}
    (ha : a ∈ (generate_llm_response ext p).2) :
    a = Event.genWithContext p.prompt p.context p.history ∨ a = Event.genPlain p.prompt := by
  unfold generate_llm_response at ha
  split at ha <;> simp_all

/-- A normal return of the try body carries exactly one successful user
append and one successful assistant append, and the final store is the
initial store with exactly those two messages appended. -/
lemma process_body_ok (ext : Ext) (s0 : Store) (chat_id user_prompt : String)
    (user_id : Option String) (resp : ChatResponse) (st : Store) (tr : List Event)
    (h : process_body ext s0 chat_id user_prompt user_id = (.ok resp, st, tr)) :
    count_user_appends tr = 1 ∧ count_assistant_appends tr = 1 ∧
    st = add_assistant_response_to_chat (add_prompt_to_chat s0 chat_id user_prompt)
      chat_id resp.response resp.citations ∧
    ∃ oc oh pl, ext.prepare_llm_payload oc oh user_prompt = .ok pl ∧
      ∀ e ∈ (generate_llm_response ext pl).2, e ∈ tr := by
  unfold process_body at h
  iterate 13 (all_goals (try split at h))
  all_goals simp only [Prod.mk.injEq] at h
  all_goals (try (exact Except.noConfusion h.1))
  obtain ⟨hr, hs, ht⟩ := h
  injection hr with hr
  subst hr hs ht
  refine ⟨?_, ?_, ?_, ?_⟩
  · simp [count_user_appends, List.countP_append, List.countP_cons]
    intro a ha
    rcases gen_event_cases ha with rfl | rfl <;> rfl
  · simp [count_assistant_appends, List.countP_append, List.countP_cons]
    intro a ha
    rcases gen_event_cases ha with rfl | rfl <;> rfl
  · simp
  · refine ⟨_, _, _, by assumption, ?_⟩
    intro e hee
    simp [List.mem_cons, List.mem_append, hee]

/-- A concrete store with a single chat "c1" owned by "u1". -/
def demo_store : Store := [("c1", ⟨"u1", []⟩)]

/-- A concrete benign collaborator environment with trivial formatter
behaviour, used to evaluate theorems at concrete inputs. -/
def wit_ext : Ext :=
  { get_chat1_fault := none
    get_chat2_fault := none
    add_prompt_fault := none
    add_assistant_fault := none
    error_append_fault := none
    query_chat_docs := fun _ _ => .ok ⟨[]⟩
    format_rag_context := fun _ => .ok []
    format_chat_history := fun _ _ => .ok []
    truncate_context_if_needed := fun c h _ => .ok (c, h)
    prepare_llm_payload := fun c h p => .ok ⟨p, c, h⟩
    generate := fun _ => .ok "ok"
    generate_with_context := fun _ _ _ => .ok "ok"
    extract_citations_from_context := fun _ _ => .ok [] }

/-- C1: whenever `process_chat_prompt` returns a response dictionary, its
trace holds exactly one successful user-message append and exactly one
successful assistant-message append, and the final store is the initial one
with exactly those two messages appended to the session; degraded retrieval
or LLM behaviour is covered because the collaborator environment is
arbitrary. -/
theorem C1_one_user_one_assistant_append (ext : Ext) (s0 : Store)
    (chat_id user_prompt : String) (user_id : Option String) (resp : ChatResponse)
    (h : (process_chat_prompt ext s0 chat_id user_prompt user_id).result = .ok resp) :
    count_user_appends (process_chat_prompt ext s0 chat_id user_prompt user_id).trace = 1 ∧
    count_assistant_appends (process_chat_prompt ext s0 chat_id user_prompt user_id).trace = 1 ∧
    (process_chat_prompt ext s0 chat_id user_prompt user_id).store =
      add_assistant_response_to_chat (add_prompt_to_chat s0 chat_id user_prompt)
        chat_id resp.response resp.citations := by
  rcases hb : process_body ext s0 chat_id user_prompt user_id with ⟨r, st, tr⟩
  unfold process_chat_prompt at h ⊢
  rw [hb] at h ⊢
  cases r with
  | ok resp2 =>
      dsimp only at h ⊢
      injection h with h
      subst h
      obtain ⟨c1, c2, c3, -⟩ :=
        process_body_ok ext s0 chat_id user_prompt user_id resp2 st tr hb
      exact ⟨c1, c2, c3⟩
  | error e =>
      rcases hf : ext.error_append_fault with _ | m <;> rw [hf] at h <;> simp at h

/-- Witness for C1: a concrete benign run. -/
theorem C1_one_user_one_assistant_append_witness :
    count_user_appends (process_chat_prompt wit_ext demo_store "c1" "hi" none).trace = 1 ∧
    count_assistant_appends (process_chat_prompt wit_ext demo_store "c1" "hi" none).trace = 1 ∧
    (process_chat_prompt wit_ext demo_store "c1" "hi" none).store =
      add_assistant_response_to_chat (add_prompt_to_chat demo_store "c1" "hi")
        "c1" "ok" [] :=
  C1_one_user_one_assistant_append wit_ext demo_store "c1" "hi" none
    ⟨"c1", "ok", [], 0, 0⟩ (by rfl)

/-- Appending the user prompt keeps every session and adds exactly one user
message to the named session. -/
lemma get_chat_add_prompt (s : Store) (cid p : String) :
    get_chat (add_prompt_to_chat s cid p) cid =
      (get_chat s cid).map
        (fun c => ⟨c.userId, c.conversation_history ++ [⟨"user", p, []⟩]⟩) := by
  induction s with
  | nil => rfl
  | cons hd tl ih =>
      by_cases hk : hd.1 = cid
      · simp [get_chat, add_prompt_to_chat, List.find?_cons, hk]
      · simp only [get_chat, add_prompt_to_chat, List.map_cons] at ih ⊢
        rw [if_neg hk]
        simp only [List.find?_cons, hk, decide_False] at ih ⊢
        exact ih

/-- C5: whenever the try body of `process_chat_prompt` fails, the handler
attempts exactly one best-effort apology append with empty citations
(recorded whether or not that append itself raises — its failure is
swallowed), and re-raises the original error unchanged, so validation
errors are propagated and never converted to a normal return. -/
theorem C5_error_path_apology_then_reraise (ext : Ext) (s0 : Store)
    (chat_id user_prompt : String) (user_id : Option String) (e : PyErr)
    (st : Store) (tr : List Event)
    (h : process_body ext s0 chat_id user_prompt user_id = (.error e, st, tr)) :
    (process_chat_prompt ext s0 chat_id user_prompt user_id).result = .error e ∧
    ((process_chat_prompt ext s0 chat_id user_prompt user_id).trace =
        tr ++ [Event.addAssistant chat_id error_response [] true] ∨
     (process_chat_prompt ext s0 chat_id user_prompt user_id).trace =
        tr ++ [Event.addAssistant chat_id error_response [] false]) := by
  unfold process_chat_prompt
  rw [h]
  rcases hf : ext.error_append_fault with _ | m <;> simp

/-- Witness for C5: a missing chat fails the body, the error is re-raised
and the apology append is attempted. -/
theorem C5_error_path_apology_then_reraise_witness :
    (process_chat_prompt wit_ext [] "c1" "hi" none).result =
      .error (.valueError ("Chat not found: " ++ "c1")) ∧
    ((process_chat_prompt wit_ext [] "c1" "hi" none).trace =
        [] ++ [Event.addAssistant "c1" error_response [] true] ∨
     (process_chat_prompt wit_ext [] "c1" "hi" none).trace =
        [] ++ [Event.addAssistant "c1" error_response [] false]) :=
  C5_error_path_apology_then_reraise wit_ext [] "c1" "hi" none
    (.valueError ("Chat not found: " ++ "c1")) [] [] (by rfl)

/-- C10: when validation fails (missing chat or owner mismatch), the run
performs no user-prompt append; its entire trace is the single best-effort
apology assistant append, always carrying an empty citations list, and the
call fails with a ValueError. -/
theorem C10_validation_failure_only_apology_write (ext : Ext) (s0 : Store)
    (chat_id user_prompt : String) (user_id : Option String)
    (h1 : ext.get_chat1_fault = none)
    (h2 : get_chat s0 chat_id = none ∨
      ∃ chat, get_chat s0 chat_id = some chat ∧ owner_mismatch chat user_id = true) :
    count_user_appends (process_chat_prompt ext s0 chat_id user_prompt user_id).trace = 0 ∧
    ((process_chat_prompt ext s0 chat_id user_prompt user_id).trace =
        [Event.addAssistant chat_id error_response [] true] ∨
     (process_chat_prompt ext s0 chat_id user_prompt user_id).trace =
        [Event.addAssistant chat_id error_response [] false]) ∧
    (∃ m, (process_chat_prompt ext s0 chat_id user_prompt user_id).result =
        .error (.valueError m)) := by
  unfold process_chat_prompt process_body
  rw [h1]
  rcases h2 with hn | ⟨chat, hc, hm⟩
  · rw [hn]
    rcases hf : ext.error_append_fault with _ | m <;>
      simp [count_user_appends]
  · rw [hc]
    simp only [hm, if_true]
    rcases hf : ext.error_append_fault with _ | m <;>
      simp [count_user_appends]

/-- Witness for C10: owner mismatch on a concrete store. -/
theorem C10_validation_failure_only_apology_write_witness :
    count_user_appends
      (process_chat_prompt wit_ext demo_store "c1" "hi" (some "u2")).trace = 0 ∧
    ((process_chat_prompt wit_ext demo_store "c1" "hi" (some "u2")).trace =
        [Event.addAssistant "c1" error_response [] true] ∨
     (process_chat_prompt wit_ext demo_store "c1" "hi" (some "u2")).trace =
        [Event.addAssistant "c1" error_response [] false]) ∧
    (∃ m, (process_chat_prompt wit_ext demo_store "c1" "hi" (some "u2")).result =
        .error (.valueError m)) :=
  C10_validation_failure_only_apology_write wit_ext demo_store "c1" "hi" (some "u2")
    (by rfl) (Or.inr ⟨⟨"u1", []⟩, by rfl, by rfl⟩)

/-- Collaborator behaviour in which no store call and no formatter call
raises; the retrieval and LLM calls stay arbitrary, since those degrade
rather than abort. -/
def benign (ext : Ext) : Prop :=
  ext.get_chat1_fault = none ∧ ext.get_chat2_fault = none ∧
  ext.add_prompt_fault = none ∧ ext.add_assistant_fault = none ∧
  (∀ r, ∃ v, ext.format_rag_context r = .ok v) ∧
  (∀ ms n, ∃ v, ext.format_chat_history ms n = .ok v) ∧
  (∀ c h b, ∃ v, ext.truncate_context_if_needed c h b = .ok v) ∧
  (∀ c h p, ∃ v, ext.prepare_llm_payload c h p = .ok v) ∧
  (∀ c r, ∃ v, ext.extract_citations_from_context c r = .ok v)

/-- The concrete benign environment is benign. -/
lemma wit_ext_benign : benign wit_ext := by
  refine ⟨rfl, rfl, rfl, rfl, ?_, ?_, ?_, ?_, ?_⟩ <;> intros <;> exact ⟨_, rfl⟩

/-- Under benign collaborators, a validated request runs the try body to a
normal return whose response carries the requested chat id. -/
lemma process_body_benign_ok (ext : Ext) (s0 : Store) (cid p : String)
    (uid : Option String) (chat : Chat) (hb : benign ext)
    (hc : get_chat s0 cid = some chat) (hm : owner_mismatch chat uid = false) :
    ∃ pl r, (process_body ext s0 cid p uid).1 = .ok r ∧ r.chatId = cid ∧
      r.response = (generate_llm_response ext pl).1 := by
  obtain ⟨h1, h2, h3, h4, hfr, hfh, htr, hpp, hec⟩ := hb
  obtain ⟨ctx, hctx⟩ := hfr (retrieve_relevant_context ext cid p).1
  obtain ⟨hist, hhist⟩ :=
    hfh (chat.conversation_history ++ [⟨"user", p, []⟩]) max_chat_history
  obtain ⟨⟨oc, oh⟩, hch2⟩ := htr ctx hist max_tokens
  obtain ⟨pl, hpl⟩ := hpp oc oh p
  obtain ⟨cits, hcits⟩ := hec oc (generate_llm_response ext pl).1
  refine ⟨pl, ?_⟩
  unfold process_body
  simp [h1, hc, hm, h3, hctx, h2, get_chat_add_prompt, hhist, hch2, hpl, hcits, h4]

/-- C2 counterexample: chat "c1" exists with owner "u1"; supplying the
userId "" — which differs from the owner — does not fail with the
ownership ValueError: the call returns a normal response, because the
Python truthiness test `if user_id and ...` skips validation for an empty
string. -/
theorem C2_counterexample :
    ("" : String) ≠ "u1" ∧
    (process_chat_prompt wit_ext demo_store "c1" "hi" (some "")).result =
      .ok ⟨"c1", "ok", [], 0, 0⟩ :=
  ⟨by decide, by rfl⟩

/-- C2 (amended): `process_chat_prompt` fails with the chat-not-found
ValueError whenever the chatId does not resolve to a session; it fails with
the ownership ValueError whenever a NON-EMPTY userId differing from the
session owner is supplied; and when the chat exists and the userId is
omitted, empty, or equal to the owner, validation passes and — with
collaborators returning normally — the call returns a ChatResponse carrying
that chatId. -/
theorem C2_amended_validation (ext : Ext) (s0 : Store) (chat_id user_prompt : String)
    (h1 : ext.get_chat1_fault = none) :
    (get_chat s0 chat_id = none →
      ∀ user_id, (process_chat_prompt ext s0 chat_id user_prompt user_id).result =
        .error (.valueError ("Chat not found: " ++ chat_id))) ∧
    (∀ chat u, get_chat s0 chat_id = some chat → u ≠ "" → chat.userId ≠ u →
      (process_chat_prompt ext s0 chat_id user_prompt (some u)).result =
        .error (.valueError "User ID does not match chat owner")) ∧
    (∀ chat user_id, get_chat s0 chat_id = some chat → benign ext →
      (user_id = none ∨ user_id = some "" ∨ user_id = some chat.userId) →
      ∃ r, (process_chat_prompt ext s0 chat_id user_prompt user_id).result = .ok r ∧
        r.chatId = chat_id) := by
  refine ⟨?_, ?_, ?_⟩
  · intro hn user_id
    unfold process_chat_prompt process_body
    rw [h1, hn]
    rcases hf : ext.error_append_fault with _ | m <;> simp
  · intro chat u hc hu hne
    have hm : owner_mismatch chat (some u) = true := by
      simp [owner_mismatch, bne_iff_ne, hu, hne]
    unfold process_chat_prompt process_body
    rw [h1, hc]
    rcases hf : ext.error_append_fault with _ | m <;> simp [hm]
  · intro chat user_id hc hb hcase
    have hm : owner_mismatch chat user_id = false := by
      rcases hcase with rfl | rfl | rfl <;> simp [owner_mismatch]
    obtain ⟨pl, r, hres, hcid, hrr⟩ :=
      process_body_benign_ok ext s0 chat_id user_prompt user_id chat hb hc hm
    refine ⟨r, ?_, hcid⟩
    unfold process_chat_prompt
    rcases hbb : process_body ext s0 chat_id user_prompt user_id with ⟨res, st, tr⟩
    rw [hbb] at hres
    dsimp at hres
    subst hres
    rfl

/-- Witness for C2 (amended): the three validation outcomes at concrete
inputs — missing chat, mismatching non-empty userId, and matching userId. -/
theorem C2_amended_validation_witness :
    (process_chat_prompt wit_ext [] "nochat" "hi" none).result =
      .error (.valueError ("Chat not found: " ++ "nochat")) ∧
    (process_chat_prompt wit_ext demo_store "c1" "hi" (some "u2")).result =
      .error (.valueError "User ID does not match chat owner") ∧
    ∃ r, (process_chat_prompt wit_ext demo_store "c1" "hi" (some "u1")).result = .ok r ∧
      r.chatId = "c1" :=
  ⟨(C2_amended_validation wit_ext [] "nochat" "hi" rfl).1 rfl none,
   (C2_amended_validation wit_ext demo_store "c1" "hi" rfl).2.1 ⟨"u1", []⟩ "u2" rfl
     (by decide) (by decide),
   (C2_amended_validation wit_ext demo_store "c1" "hi" rfl).2.2 ⟨"u1", []⟩ (some "u1") rfl
     wit_ext_benign (Or.inr (Or.inr rfl))⟩

/-- When the selected LLM call raises, generation returns the fixed
fallback string. -/
lemma gen_fallback (ext : Ext) (pl : Payload)
    (hgc : isErr (ext.generate_with_context pl.prompt pl.context pl.history) = true)
    (hg : isErr (ext.generate pl.prompt) = true) :
    (generate_llm_response ext pl).1 = fallback_response := by
  unfold generate_llm_response
  split
  · rcases h : ext.generate_with_context pl.prompt pl.context pl.history with m | v <;>
      simp_all [isErr]
  · rcases h : ext.generate pl.prompt with m | v <;> simp_all [isErr]

/-- The concrete environment whose LLM calls always raise. -/
def llm_down_ext : Ext :=
  { wit_ext with
    generate := fun _ => .error "llm down"
    generate_with_context := fun _ _ _ => .error "llm down" }

/-- C3: when every LLM generation call raises, `_generate_llm_response`
returns the fixed fallback string for every payload instead of propagating;
on a validated request with benign store and formatter calls, the pipeline
still returns normally, the response field equals the fallback string, and
the session receives the fallback text as the appended assistant message. -/
theorem C3_llm_failure_yields_fallback (ext : Ext)
    (hgc : ∀ p c h, isErr (ext.generate_with_context p c h) = true)
    (hg : ∀ p, isErr (ext.generate p) = true) :
    (∀ pl : Payload, (generate_llm_response ext pl).1 = fallback_response) ∧
    (∀ s0 chat_id user_prompt user_id chat, benign ext →
      get_chat s0 chat_id = some chat → owner_mismatch chat user_id = false →
      ∃ r, (process_chat_prompt ext s0 chat_id user_prompt user_id).result = .ok r ∧
        r.response = fallback_response ∧
        (process_chat_prompt ext s0 chat_id user_prompt user_id).store =
          add_assistant_response_to_chat (add_prompt_to_chat s0 chat_id user_prompt)
            chat_id fallback_response r.citations) := by
  have hfb : ∀ pl : Payload, (generate_llm_response ext pl).1 = fallback_response :=
    fun pl => gen_fallback ext pl (hgc pl.prompt pl.context pl.history) (hg pl.prompt)
  refine ⟨hfb, ?_⟩
  intro s0 chat_id user_prompt user_id chat hb hc hm
  obtain ⟨pl, r, hres, _, hrr⟩ :=
    process_body_benign_ok ext s0 chat_id user_prompt user_id chat hb hc hm
  have hrfb : r.response = fallback_response := by rw [hrr, hfb pl]
  rcases hbb : process_body ext s0 chat_id user_prompt user_id with ⟨res, st, tr⟩
  rw [hbb] at hres
  dsimp at hres
  subst hres
  obtain ⟨-, -, hst, -⟩ :=
    process_body_ok ext s0 chat_id user_prompt user_id r st tr hbb
  refine ⟨r, ?_, hrfb, ?_⟩
  · unfold process_chat_prompt
    rw [hbb]
  · unfold process_chat_prompt
    rw [hbb]
    dsimp
    rw [hst, hrfb]

/-- Witness for C3: a concrete run with the LLM down returns the fallback
and appends it to the session. -/
theorem C3_llm_failure_yields_fallback_witness :
    (generate_llm_response llm_down_ext ⟨"q", [], []⟩).1 = fallback_response ∧
    ∃ r, (process_chat_prompt llm_down_ext demo_store "c1" "hi" none).result = .ok r ∧
      r.response = fallback_response ∧
      (process_chat_prompt llm_down_ext demo_store "c1" "hi" none).store =
        add_assistant_response_to_chat (add_prompt_to_chat demo_store "c1" "hi")
          "c1" fallback_response r.citations :=
  ⟨(C3_llm_failure_yields_fallback llm_down_ext (fun _ _ _ => rfl) (fun _ => rfl)).1
     ⟨"q", [], []⟩,
   (C3_llm_failure_yields_fallback llm_down_ext (fun _ _ _ => rfl) (fun _ => rfl)).2
     demo_store "c1" "hi" none ⟨"u1", []⟩
     (by refine ⟨rfl, rfl, rfl, rfl, ?_, ?_, ?_, ?_, ?_⟩ <;> intros <;> exact ⟨_, rfl⟩)
     rfl rfl⟩

/-- Truncation never invents context: an empty context list stays empty. -/
lemma spec_truncate_nil_ctx (h : List String) (b : Nat) :
    (spec_truncate_context_if_needed [] h b).1 = [] := by
  unfold spec_truncate_context_if_needed
  split
  · rfl
  · split <;> rfl

/-- The concrete environment whose retrieval call always raises and whose
formatter follows the spec-modelled contract. -/
def chroma_down_ext : Ext :=
  { wit_ext with
    query_chat_docs := fun _ _ => .error "chroma down"
    format_rag_context := fun r => .ok (spec_format_rag_context r)
    truncate_context_if_needed := fun c h b => .ok (spec_truncate_context_if_needed c h b) }

/-- C4: when the ChromaDB query raises, `_retrieve_relevant_context`
returns the empty dict instead of propagating, and — on a validated
request with benign collaborators and the spec-modelled formatter —
`process_chat_prompt` still returns normally with `contextUsed = 0`. -/
theorem C4_retrieval_failure_empty_context (ext : Ext) (s0 : Store)
    (chat_id user_prompt : String) (user_id : Option String) (chat : Chat) (m : String)
    (hq : ext.query_chat_docs chat_id user_prompt = .error m)
    (hfr : ext.format_rag_context = fun r => .ok (spec_format_rag_context r))
    (htr : ext.truncate_context_if_needed =
      fun c h b => .ok (spec_truncate_context_if_needed c h b))
    (h1 : ext.get_chat1_fault = none) (h2 : ext.get_chat2_fault = none)
    (h3 : ext.add_prompt_fault = none) (h4 : ext.add_assistant_fault = none)
    (hfh : ∀ ms n, ∃ v, ext.format_chat_history ms n = .ok v)
    (hpp : ∀ c h p, ∃ v, ext.prepare_llm_payload c h p = .ok v)
    (hec : ∀ c r, ∃ v, ext.extract_citations_from_context c r = .ok v)
    (hc : get_chat s0 chat_id = some chat)
    (hm : owner_mismatch chat user_id = false) :
    (retrieve_relevant_context ext chat_id user_prompt).1 = RagResults.empty ∧
    ∃ r, (process_chat_prompt ext s0 chat_id user_prompt user_id).result = .ok r ∧
      r.contextUsed = 0 := by
  have hret : (retrieve_relevant_context ext chat_id user_prompt).1 = RagResults.empty := by
    unfold retrieve_relevant_context
    rw [hq]
  refine ⟨hret, ?_⟩
  obtain ⟨hist, hhist⟩ :=
    hfh (chat.conversation_history ++ [⟨"user", user_prompt, []⟩]) max_chat_history
  rcases hsp : spec_truncate_context_if_needed [] hist max_tokens with ⟨oc, oh⟩
  have hoc : oc = [] := by
    have h0 := spec_truncate_nil_ctx hist max_tokens
    rw [hsp] at h0
    exact h0
  subst hoc
  obtain ⟨pl, hpl⟩ := hpp [] oh user_prompt
  obtain ⟨cits, hcits⟩ := hec [] (generate_llm_response ext pl).1
  unfold process_chat_prompt process_body
  simp [h1, hc, hm, h3, hfr, hret, h2, get_chat_add_prompt, hhist, htr, hsp,
    spec_format_rag_context, RagResults.empty, hpl, hcits, h4]

/-- Witness for C4: a concrete run with retrieval down completes with zero
context items used. -/
theorem C4_retrieval_failure_empty_context_witness :
    (retrieve_relevant_context chroma_down_ext "c1" "hi").1 = RagResults.empty ∧
    ∃ r, (process_chat_prompt chroma_down_ext demo_store "c1" "hi" none).result = .ok r ∧
      r.contextUsed = 0 :=
  C4_retrieval_failure_empty_context chroma_down_ext demo_store "c1" "hi" none
    ⟨"u1", []⟩ "chroma down" rfl rfl rfl rfl rfl rfl rfl
    (fun _ _ => ⟨_, rfl⟩) (fun _ _ _ => ⟨_, rfl⟩) (fun _ _ => ⟨_, rfl⟩) rfl rfl

/-- The greedy selection stays within its token budget. -/
lemma tokens_take_within (budget : Nat) (l : List String) :
    tokens_of (take_within_budget budget l) ≤ budget := by
  induction l generalizing budget with
  | nil => simp [take_within_budget, tokens_of]
  | cons b rest ih =>
      unfold take_within_budget
      split
      · rename_i hle
        have hr := ih (budget - estimate_tokens b)
        unfold tokens_of at hr ⊢
        simp only [List.map_cons, List.sum_cons]
        omega
      · simp [tokens_of]

/-- Reversal does not change the token estimate of a block list. -/
lemma tokens_of_reverse (l : List String) : tokens_of l.reverse = tokens_of l := by
  unfold tokens_of
  rw [List.map_reverse, List.sum_reverse]

/-- The spec-modelled truncation never exceeds its token budget. -/
lemma spec_truncate_within_budget (ctx hist : List String) (budget : Nat) :
    tokens_of (spec_truncate_context_if_needed ctx hist budget).1 +
      tokens_of (spec_truncate_context_if_needed ctx hist budget).2 ≤ budget := by
  unfold spec_truncate_context_if_needed
  split
  · assumption
  · split
    · rename_i hgt hh
      have ht := tokens_take_within (budget - tokens_of hist) ctx
      dsimp only
      omega
    · have ht := tokens_take_within budget hist.reverse
      dsimp only
      rw [tokens_of_reverse]
      have h0 : tokens_of ([] : List String) = 0 := rfl
      omega

/-- Generation records exactly one LLM-call event, carrying the payload's
prompt. -/
lemma gen_events_singleton (ext : Ext) (pl : Payload) :
    (generate_llm_response ext pl).2 =
      [Event.genWithContext pl.prompt pl.context pl.history] ∨
    (generate_llm_response ext pl).2 = [Event.genPlain pl.prompt] := by
  unfold generate_llm_response
  split <;> simp

/-- C6: the configured budget is 8000 tokens; truncation never leaves a
combined context-plus-history estimate above the budget; the payload keeps
the prompt verbatim; and in every normal `process_chat_prompt` run whose
payload builder preserves the prompt, the LLM-call event in the trace
carries the original user prompt unchanged. -/
theorem C6_token_budget_and_prompt_preserved (ext : Ext) :
    max_tokens = 8000 ∧
    (∀ ctx hist,
      tokens_of (spec_truncate_context_if_needed ctx hist max_tokens).1 +
        tokens_of (spec_truncate_context_if_needed ctx hist max_tokens).2 ≤ max_tokens) ∧
    (∀ oc oh q, (spec_prepare_llm_payload oc oh q).prompt = q) ∧
    (∀ s0 chat_id user_prompt user_id resp,
      (∀ c h q pl, ext.prepare_llm_payload c h q = .ok pl → pl.prompt = q) →
      (process_chat_prompt ext s0 chat_id user_prompt user_id).result = .ok resp →
      ∃ pr, pr = user_prompt ∧
        ((∃ c h, Event.genWithContext pr c h ∈
            (process_chat_prompt ext s0 chat_id user_prompt user_id).trace) ∨
         Event.genPlain pr ∈
            (process_chat_prompt ext s0 chat_id user_prompt user_id).trace)) := by
  refine ⟨rfl, fun ctx hist => spec_truncate_within_budget ctx hist max_tokens,
    fun _ _ _ => rfl, ?_⟩
  intro s0 chat_id user_prompt user_id resp hprep hok
  rcases hb : process_body ext s0 chat_id user_prompt user_id with ⟨res, st, tr⟩
  unfold process_chat_prompt at hok ⊢
  rw [hb] at hok ⊢
  cases res with
  | error e => rcases hf : ext.error_append_fault with _ | m <;> rw [hf] at hok <;>
      exact Except.noConfusion hok
  | ok resp2 =>
      dsimp only at hok ⊢
      obtain ⟨-, -, -, oc, oh, pl, hpl, hsub⟩ :=
        process_body_ok ext s0 chat_id user_prompt user_id resp2 st tr hb
      refine ⟨pl.prompt, hprep oc oh user_prompt pl hpl, ?_⟩
      rcases gen_events_singleton ext pl with hg | hg
      · exact Or.inl ⟨pl.context, pl.history, hsub _ (by rw [hg]; exact List.mem_singleton_self _)⟩
      · exact Or.inr (hsub _ (by rw [hg]; exact List.mem_singleton_self _))

/-- Witness for C6: the budget facts at concrete block lists and the
prompt-preservation fact at a concrete benign run. -/
theorem C6_token_budget_and_prompt_preserved_witness :
    max_tokens = 8000 ∧
    tokens_of (spec_truncate_context_if_needed ["alpha"] ["beta"] max_tokens).1 +
      tokens_of (spec_truncate_context_if_needed ["alpha"] ["beta"] max_tokens).2 ≤
        max_tokens ∧
    (spec_prepare_llm_payload ["alpha"] ["beta"] "hi").prompt = "hi" ∧
    ∃ pr, pr = "hi" ∧
      ((∃ c h, Event.genWithContext pr c h ∈
          (process_chat_prompt wit_ext demo_store "c1" "hi" none).trace) ∨
       Event.genPlain pr ∈ (process_chat_prompt wit_ext demo_store "c1" "hi" none).trace) :=
  ⟨(C6_token_budget_and_prompt_preserved wit_ext).1,
   (C6_token_budget_and_prompt_preserved wit_ext).2.1 ["alpha"] ["beta"],
   (C6_token_budget_and_prompt_preserved wit_ext).2.2.1 ["alpha"] ["beta"] "hi",
   (C6_token_budget_and_prompt_preserved wit_ext).2.2.2 demo_store "c1" "hi" none
     ⟨"c1", "ok", [], 0, 0⟩
     (by intro c h q pl hpl; injection hpl with h1; rw [← h1]) (by rfl)⟩

/-- Every event the try body records is also in the full run's trace. -/
lemma body_trace_subset (ext : Ext) (s0 : Store) (cid p : String)
    (uid : Option String) :
    ∀ e ∈ (process_body ext s0 cid p uid).2.2,
      e ∈ (process_chat_prompt ext s0 cid p uid).trace := by
  intro e he
  rcases hb : process_body ext s0 cid p uid with ⟨res, st, tr⟩
  rw [hb] at he
  dsimp at he
  unfold process_chat_prompt
  rw [hb]
  cases res with
  | ok r => exact he
  | error err =>
      rcases hf : ext.error_append_fault with _ | m <;>
        exact List.mem_append_left _ he

/-- Once validation and the prompt append succeed and the RAG formatting
returns, the body records the retrieval query scoped to the chat and the
history formatting over the re-loaded (post-append) history with the
configured turn limit. -/
lemma body_records_query_and_history (ext : Ext) (s0 : Store)
    (chat_id user_prompt : String) (user_id : Option String) (chat : Chat)
    (h1 : ext.get_chat1_fault = none) (h2 : ext.get_chat2_fault = none)
    (h3 : ext.add_prompt_fault = none)
    (hfr : ∀ r, ∃ v, ext.format_rag_context r = .ok v)
    (hc : get_chat s0 chat_id = some chat)
    (hm : owner_mismatch chat user_id = false) :
    Event.queryDocs chat_id user_prompt ∈
      (process_body ext s0 chat_id user_prompt user_id).2.2 ∧
    Event.formatHistory (chat.conversation_history ++ [⟨"user", user_prompt, []⟩])
      max_chat_history ∈ (process_body ext s0 chat_id user_prompt user_id).2.2 := by
  obtain ⟨ctx, hctx⟩ := hfr (retrieve_relevant_context ext chat_id user_prompt).1
  unfold process_body
  simp only [h1, hc, hm, h3, hctx, h2, get_chat_add_prompt, Option.map_some',
    Bool.false_eq_true, if_false]
  constructor <;> (repeat' split) <;> simp

/-- C7: the configured limits are K = 5 retrieval results and N = 10
history turns; the spec-modelled retrieval returns at most K items all
scoped to the chat's document set; and a validated run records the
retrieval query for the chat and formats the re-loaded history (which
already holds the appended prompt) with the N-turn limit. -/
theorem C7_configured_limits (ext : Ext) :
    max_rag_results = 5 ∧ max_chat_history = 10 ∧
    (∀ db cid q, (spec_query_chat_docs db cid q).documents.flatten.length ≤ max_rag_results ∧
      ∀ d ∈ (spec_query_chat_docs db cid q).documents.flatten, d ∈ chat_docs db cid) ∧
    (∀ s0 chat_id user_prompt user_id chat,
      ext.get_chat1_fault = none → ext.get_chat2_fault = none →
      ext.add_prompt_fault = none →
      (∀ r, ∃ v, ext.format_rag_context r = .ok v) →
      get_chat s0 chat_id = some chat → owner_mismatch chat user_id = false →
      Event.queryDocs chat_id user_prompt ∈
        (process_chat_prompt ext s0 chat_id user_prompt user_id).trace ∧
      Event.formatHistory (chat.conversation_history ++ [⟨"user", user_prompt, []⟩])
        max_chat_history ∈
        (process_chat_prompt ext s0 chat_id user_prompt user_id).trace) := by
  refine ⟨rfl, rfl, ?_, ?_⟩
  · intro db cid q
    constructor
    · simp [spec_query_chat_docs]
    · intro d hd
      simp [spec_query_chat_docs] at hd
      exact List.take_subset _ _ hd
  · intro s0 chat_id user_prompt user_id chat h1 h2 h3 hfr hc hm
    obtain ⟨hq, hh⟩ := body_records_query_and_history ext s0 chat_id user_prompt
      user_id chat h1 h2 h3 hfr hc hm
    exact ⟨body_trace_subset ext s0 chat_id user_prompt user_id _ hq,
           body_trace_subset ext s0 chat_id user_prompt user_id _ hh⟩

/-- Witness for C7: the limits at a concrete document index and a concrete
benign run. -/
theorem C7_configured_limits_witness :
    (spec_query_chat_docs [("c1", ["d1", "d2"])] "c1" "hi").documents.flatten.length ≤
      max_rag_results ∧
    Event.queryDocs "c1" "hi" ∈ (process_chat_prompt wit_ext demo_store "c1" "hi" none).trace ∧
    Event.formatHistory [⟨"user", "hi", []⟩] max_chat_history ∈
      (process_chat_prompt wit_ext demo_store "c1" "hi" none).trace :=
  ⟨((C7_configured_limits wit_ext).2.2.1 [("c1", ["d1", "d2"])] "c1" "hi").1,
   ((C7_configured_limits wit_ext).2.2.2 demo_store "c1" "hi" none ⟨"u1", []⟩
      rfl rfl rfl (fun _ => ⟨_, rfl⟩) rfl rfl).1,
   ((C7_configured_limits wit_ext).2.2.2 demo_store "c1" "hi" none ⟨"u1", []⟩
      rfl rfl rfl (fun _ => ⟨_, rfl⟩) rfl rfl).2⟩

/-- C8: `_generate_llm_response` records a context-aware generation call
exactly when the payload has a non-empty context or a non-empty history,
and records a plain generation call on the prompt alone exactly when both
are empty. -/
theorem C8_generation_mode_selection (ext : Ext) (p : Payload) :
    ((generate_llm_response ext p).2 =
        [Event.genWithContext p.prompt p.context p.history] ↔
      (p.context ≠ [] ∨ p.history ≠ [])) ∧
    ((generate_llm_response ext p).2 = [Event.genPlain p.prompt] ↔
      (p.context = [] ∧ p.history = [])) := by
  unfold generate_llm_response
  split
  · rename_i hcond
    refine ⟨iff_of_true rfl hcond, iff_of_false (by simp) ?_⟩
    rintro ⟨hc, hh⟩
    rcases hcond with h | h <;> exact h (by assumption)
  · rename_i hcond
    push_neg at hcond
    exact ⟨iff_of_false (by simp) (by rintro (h | h) <;> exact h (by tauto)),
      iff_of_true rfl ⟨hcond.1, hcond.2⟩⟩

/-- C9: `health_check` never throws (it is total), always reports the
orchestrator itself healthy and the LLM handle present; a failing probe
turns only its own component false, and disabling only the vector store
yields chroma false with mongodb and perplexity true. -/
theorem C9_health_check_independent_probes (ext : HealthExt) :
    (health_check ext).chatbot_service = true ∧
    (health_check ext).perplexity_llm = true ∧
    (∀ m, ext.get_collection = .error m → (health_check ext).chroma_db = false) ∧
    (∀ m, ext.get_chat_probe = .error m → (health_check ext).mongodb = false) ∧
    (∀ m col, ext.get_chat_probe = .error m → ext.get_collection = .ok (some col) →
      health_check ext = ⟨true, true, false, true⟩) ∧
    (∀ m c, ext.get_collection = .error m → ext.get_chat_probe = .ok c →
      health_check ext = ⟨true, false, true, true⟩) := by
  refine ⟨rfl, rfl, ?_, ?_, ?_, ?_⟩
  · intro m hm
    unfold health_check
    rw [hm]
  · intro m hm
    unfold health_check
    rw [hm]
  · intro m col hm hcol
    unfold health_check
    rw [hm, hcol]
    rfl
  · intro m c hm hc
    unfold health_check
    rw [hm, hc]

/-- Witness for C9: the vector store disabled alone, and the chat store
disabled alone, at concrete probe outcomes. -/
theorem C9_health_check_independent_probes_witness :
    health_check ⟨.error "chroma down", .ok none⟩ = ⟨true, false, true, true⟩ ∧
    health_check ⟨.ok (some "col"), .error "mongo down"⟩ = ⟨true, true, false, true⟩ :=
  ⟨(C9_health_check_independent_probes ⟨.error "chroma down", .ok none⟩).2.2.2.2.2
     "chroma down" none rfl rfl,
   (C9_health_check_independent_probes ⟨.ok (some "col"), .error "mongo down"⟩).2.2.2.2.1
     "mongo down" "col" rfl rfl⟩

end CogniScript
